import Mathlib

/-!
Shallow embedding of `frd_stac/utils/cogs.py`: the `COG` raster descriptor, its
remote-file factory, dryness check and thumbnail rendering, and the `FRDCog`
catalog-item builder.  External libraries (pyproj, rasterio, matplotlib) and the
missing `s3_utils` module are modelled by an explicit environment record; the
ambient clock is an explicit parameter; side effects (file writes, thumbnail
invocations) are returned as values.  Coordinates and timestamps are rationals.
-/

namespace FrdStac

/-- A GeoJSON-style geometry as produced by `shapely.geometry.mapping`. -/
structure Geometry where
  type : String
  coordinates : List (ℚ × ℚ)
  deriving DecidableEq

/-- A shapely polygon, modelled by the list of vertices handed to its constructor. -/
structure Polygon where
  vertices : List (ℚ × ℚ)
  deriving DecidableEq

/-- The `shapely.geometry.mapping` conversion of a polygon. -/
def mapping (p : Polygon) : Geometry :=
  { type := "Polygon", coordinates := p.vertices }

/-- The `bounds` attribute of an open rasterio dataset. -/
structure Bounds where
  left : ℚ
  bottom : ℚ
  right : ℚ
  top : ℚ
  deriving DecidableEq

/-- An open rasterio dataset: the metadata and pixel data the code reads.
Band `i` of `dataset.read` is `bands[i-1]`, each band a flattened pixel list. -/
structure Dataset where
  bounds : Bounds
  crsString : String
  datetimeTags : List (String × String)
  res : ℚ × ℚ
  width : ℕ
  height : ℕ
  bands : List (List ℚ)
  nodatavals : List (Option ℚ)
  dtype : String
  deriving DecidableEq

/-- The `count` attribute: rasterio reports one band per entry of `read`. -/
def Dataset.count (d : Dataset) : ℕ := d.bands.length

/-- The `dataset.read(1)` call: the first band, failing when there is no band 1. -/
def Dataset.read1 (d : Dataset) : Except String (List ℚ) :=
  match d.bands.head? with
  | some b => .ok b
  | none => .error "IndexError: band index 1 out of range"

/-- The `dataset.nodatavals[0]` access as a fallible lookup (per-band declared
nodata; `none` models Python's `None` for an undeclared nodata). -/
def Dataset.nodataval0 (d : Dataset) : Except String (Option ℚ) :=
  match d.nodatavals.head? with
  | some v => .ok v
  | none => .error "IndexError: tuple index out of range"

/-- External-library environment: the pyproj transformer factory
(`Transformer.from_crs src dst always_xy`, as a coordinate map), rasterio's
`open` (an exception becomes `Except.error`), the per-band resampler inside
`rasterio.warp.reproject` (band, destination height, destination width), and
`s3_utils.get_object_datetime` — that module is absent from the sources, so per
the spec it yields the object-storage-reported last-modified timestamp, or fails. -/
structure Env where
  fromCrs : String → String → Bool → (ℚ × ℚ → ℚ × ℚ)
  openDataset : String → Except String Dataset
  reprojectBand : List ℚ → ℕ → ℕ → List ℚ
  getObjectDatetime : String → String → Except String ℚ

/-- Modelled from the spec: `split_s3_path` comes from the missing `s3_utils`
module; per the spec's remote-storage addressing it splits an `s3://bucket/key`
URI into the bucket name and the object key. -/
def split_s3_path (uri : String) : String × String :=
  let rest := (uri.drop 5).splitOn "/"
  (rest.headD "", String.intercalate "/" rest.tail)

/-- The raster descriptor `COG`; fields mirror the attributes set in `COG.__init__`. -/
structure COG where
  uri : String
  _bbox : List ℚ
  temporal : ℚ
  resolution : ℚ × ℚ
  projection : String
  _footprint_4326 : Geometry
  cmap : String
  deriving DecidableEq

/-- The `bbox` property: the stored native bounding box. -/
def COG.bbox (c : COG) : List ℚ := c._bbox

/-- The `bbox_4326` property: an always-xy transformer from the native projection
to epsg:4326 applied to the two corner points, the images concatenated.  List
indexing is modelled total with default 0; every use is on a four-element list. -/
def COG.bbox_4326 (env : Env) (c : COG) : List ℚ :=
  let transformer := env.fromCrs c.projection "epsg:4326" true
  let p := transformer (c._bbox.getD 0 0, c._bbox.getD 1 0)
  let q := transformer (c._bbox.getD 2 0, c._bbox.getD 3 0)
  [p.1, p.2] ++ [q.1, q.2]

/-- The `_create_footprint` method: the rectangle polygon over the epsg:4326
bounding box, reading the `bbox_4326` property once per coordinate as the source does. -/
def COG._create_footprint (env : Env) (c : COG) : Polygon :=
  { vertices :=
      [((c.bbox_4326 env).getD 0 0, (c.bbox_4326 env).getD 1 0),
       ((c.bbox_4326 env).getD 0 0, (c.bbox_4326 env).getD 3 0),
       ((c.bbox_4326 env).getD 2 0, (c.bbox_4326 env).getD 3 0),
       ((c.bbox_4326 env).getD 2 0, (c.bbox_4326 env).getD 1 0)] }

/-- The `COG.__init__` constructor: stores the fields, sets `temporal` to the
construction-time clock reading `now` (the `temporal` argument is never read, so
it is allowed any type), then computes and caches the footprint from the freshly
stored fields. -/
def COG.init {α : Type} (env : Env) (now : ℚ) (uri : String) (bbox : List ℚ)
    (temporal : α) (resolution : ℚ × ℚ) (projection : String) (cmap : String) : COG :=
  let c0 : COG :=
    { uri := uri, _bbox := bbox, temporal := now, resolution := resolution,
      projection := projection, _footprint_4326 := { type := "", coordinates := [] },
      cmap := cmap }
  { c0 with _footprint_4326 := mapping (c0._create_footprint env) }

/-- The value bound to the local variable `temporal` inside `from_s3`: either the
storage last-modified timestamp or the raw TIFFTAG_DATETIME tag dictionary.  The
variable is computed and then never used by the constructor call. -/
inductive TemporalVal
  | dt (t : ℚ)
  | tagDict (l : List (String × String))
  deriving DecidableEq

/-- The `COG.from_s3` classmethod: opens the remote raster, reads bounds,
projection and the capture-time tag (falling back to the storage last-modified
lookup when the tag namespace is empty), and constructs a descriptor; any
exception is caught, printed and turned into `none`. -/
def COG.from_s3 (env : Env) (now : ℚ) (bucket_name file_key cmap : String) : Option COG :=
  let body : Except String COG := do
    let dataset ← env.openDataset ("/vsis3/" ++ bucket_name ++ "/" ++ file_key)
    let bbox := dataset.bounds
    let projection := dataset.crsString
    let _temporal ← if dataset.datetimeTags = [] then
        (env.getObjectDatetime bucket_name file_key).map TemporalVal.dt
      else pure (TemporalVal.tagDict dataset.datetimeTags)
    pure (COG.init env now ("s3://" ++ bucket_name ++ "/" ++ file_key)
      [bbox.left, bbox.bottom, bbox.right, bbox.top] now dataset.res projection cmap)
  match body with
  | .ok c => some c
  | .error _ => none

/-- The numpy elementwise equality of a pixel with `dataset.nodatavals[0]`:
comparison with an undeclared (`None`) nodata is elementwise false. -/
def pixelEqNodata (v : ℚ) (nodata : Option ℚ) : Bool :=
  match nodata with
  | some nd => v == nd
  | none => false

/-- The `all_cells_dry` property: re-opens the remote raster, reads band 1 and
tests whether every pixel equals the declared nodata value; any exception is
caught, printed and turned into `none`. -/
def COG.all_cells_dry (env : Env) (c : COG) : Option Bool :=
  let bucket := (split_s3_path c.uri).1
  let key := (split_s3_path c.uri).2
  let body : Except String Bool := do
    let dataset ← env.openDataset ("/vsis3/" ++ bucket ++ "/" ++ key)
    let raster_data ← dataset.read1
    let nodata ← dataset.nodataval0
    pure (raster_data.all (fun v => pixelEqNodata v nodata))
  match body with
  | .ok b => some b
  | .error _ => none

/-- A file written by `plt.imsave`: target path, single-band image data, color map. -/
structure FileWrite where
  path : String
  image : List ℚ
  cmap : String
  deriving DecidableEq

/-- The `np.squeeze(a, axis=0)` call on the band axis: succeeds exactly when that
axis has size one, raising `ValueError` otherwise. -/
def squeeze_axis0 {α : Type} (a : List α) : Except String α :=
  match a with
  | [x] => .ok x
  | _ => .error "ValueError: cannot squeeze axis with size other than one"

/-- The `self.uri.replace` call turning every `s3://` into `/vsis3/`. -/
def replaceS3 (uri : String) : String :=
  String.intercalate "/vsis3/" (uri.splitOn "s3://")

/-- The `create_thumbnail` method: reads the raster, resamples each band onto the
reduced grid, squeezes the band axis away and saves one PNG; every exception is
caught and printed, and then nothing is written.  The affine rescale divides by
the reduced dimensions, so a zero reduced dimension raises before saving.  The
returned list is the file writes performed. -/
def COG.create_thumbnail (env : Env) (c : COG) (thumbnail_path : String)
    (factor : ℕ) : List FileWrite :=
  let body : Except String FileWrite := do
    let dataset ← env.openDataset (replaceS3 c.uri)
    let data := dataset.bands
    let new_width := dataset.width / factor
    let new_height := dataset.height / factor
    if new_width = 0 ∨ new_height = 0 then
      Except.error "ZeroDivisionError: float division by zero"
    else do
      let resampled := data.map (fun b => env.reprojectBand b new_height new_width)
      let img ← squeeze_axis0 resampled
      pure { path := thumbnail_path, image := img, cmap := c.cmap }
  match body with
  | .ok w => [w]
  | .error _ => []

/-- A pystac media type as used by the builder. -/
inductive MediaType
  | geotiff
  | png
  deriving DecidableEq

/-- A pystac asset: href, media type and roles. -/
structure Asset where
  href : String
  media_type : MediaType
  roles : List String
  deriving DecidableEq

/-- A value of the item's property bag. -/
inductive PropValue
  | str (s : String)
  | qlist (l : List ℚ)
  | obj (entries : List (String × String))
  deriving DecidableEq

/-- A pystac item as assembled by the builder. -/
structure Item where
  id : String
  geometry : Geometry
  bbox : List ℚ
  datetime : ℚ
  stac_extensions : List String
  properties : List (String × PropValue)
  assets : List (String × Asset)
  deriving DecidableEq

/-- The `item.add_asset` call, appending a keyed asset. -/
def Item.add_asset (item : Item) (key : String) (asset : Asset) : Item :=
  { item with assets := item.assets ++ [(key, asset)] }

/-- The `pystac.utils.datetime_to_str` formatting, abstracted. -/
def datetime_to_str (t : ℚ) : String := toString t

/-- An observable side effect of the builder: invoking the thumbnail-rendering
operation with a path, or an actual file write it performed. -/
inductive Effect
  | thumbnailCall (path : String)
  | fileWrite (w : FileWrite)
  deriving DecidableEq

/-- The `FRDCog` subclass: its `__init__` only delegates to `COG.__init__`, so the
descriptor type is the same. -/
abbrev FRDCog := COG

/-- The `FRDCog.to_pystac_item` method: assembles the item from the descriptor's
fields plus fixed metadata, attaches the `cog` asset, and when `new_thumbnail` is
set invokes thumbnail rendering and attaches the `thumbnail` asset.  The second
component collects the side effects. -/
def FRDCog.to_pystac_item (env : Env) (now : ℚ) (c : FRDCog) (item_id : String)
    (thumbnail_path : String) (new_thumbnail : Bool) : Item × List Effect :=
  let item : Item :=
    { id := item_id
      geometry := c._footprint_4326
      bbox := c.bbox_4326 env
      datetime := c.temporal
      stac_extensions :=
        ["https://stac-extensions.github.io/projection/v1.0.0/schema.json",
         "https://stac-extensions.github.io/storage/v1.0.0/schema.json",
         "https://stac-extensions.github.io/processing/v1.1.0/schema.json"]
      properties :=
        [("frd:proj", PropValue.str "kanawha"),
         ("frd:project_status", PropValue.str "FFRD pilot"),
         ("proj:bbox", PropValue.qlist c.bbox),
         ("proj:wkt2", PropValue.str c.projection),
         ("processing:software", PropValue.obj [("frd-to-stac", "2023.11.04")]),
         ("created", PropValue.str (datetime_to_str now)),
         ("updated", PropValue.str (datetime_to_str now))]
      assets := [] }
  let item := item.add_asset "cog"
    { href := "grid.tif", media_type := MediaType.geotiff, roles := ["data"] }
  if new_thumbnail then
    let writes := c.create_thumbnail env thumbnail_path 4
    (item.add_asset "thumbnail"
       { href := "thumbnail.png", media_type := MediaType.png, roles := ["thumbnail"] },
     Effect.thumbnailCall thumbnail_path :: writes.map Effect.fileWrite)
  else
    (item, [])

/-- The `bbox_4326` property access as a state-passing method call: the body
assigns nothing to the receiver, so the translation returns the value together
with the unchanged receiver as the post-state. -/
def COG.bbox_4326_access (env : Env) (c : COG) : List ℚ × COG :=
  (c.bbox_4326 env, c)

/-! Concrete sample environments and descriptors used by the witnesses. -/

/-- A sample projective transform: doubles x and shifts y by 100. -/
def sampleTransform (p : ℚ × ℚ) : ℚ × ℚ := (2 * p.1, p.2 + 100)

/-- A sample single-band dataset whose pixels all equal the declared nodata 3. -/
def sampleDataset : Dataset :=
  { bounds := { left := 0, bottom := 1, right := 10, top := 11 }
    crsString := "EPSG:5070"
    datetimeTags := []
    res := (1, 1)
    width := 8
    height := 8
    bands := [[3, 3, 3, 3]]
    nodatavals := [some 3]
    dtype := "float32" }

/-- A sample environment in which every external call succeeds; the storage
last-modified timestamp is 5. -/
def sampleEnv : Env :=
  { fromCrs := fun _ _ _ => sampleTransform
    openDataset := fun _ => .ok sampleDataset
    reprojectBand := fun b _ _ => b
    getObjectDatetime := fun _ _ => .ok 5 }

/-- An environment in which opening the raster fails. -/
def failEnv : Env :=
  { fromCrs := fun _ _ _ => sampleTransform
    openDataset := fun _ => .error "RasterioIOError"
    reprojectBand := fun b _ _ => b
    getObjectDatetime := fun _ _ => .error "NoSuchKey" }

/-- An environment in which the raster opens but the last-modified lookup fails. -/
def failEnv2 : Env :=
  { fromCrs := fun _ _ _ => sampleTransform
    openDataset := fun _ => .ok sampleDataset
    reprojectBand := fun b _ _ => b
    getObjectDatetime := fun _ _ => .error "NoSuchKey" }

/-- A two-band dataset, for the thumbnail squeeze failure. -/
def multibandDataset : Dataset :=
  { bounds := { left := 0, bottom := 0, right := 4, top := 4 }
    crsString := "EPSG:5070"
    datetimeTags := [("TIFFTAG_DATETIME", "2023:11:04 00:00:00")]
    res := (1, 1)
    width := 8
    height := 8
    bands := [[1, 2], [3, 4]]
    nodatavals := [some 0, some 0]
    dtype := "float32" }

/-- An environment that opens the two-band dataset. -/
def multibandEnv : Env :=
  { fromCrs := fun _ _ _ => sampleTransform
    openDataset := fun _ => .ok multibandDataset
    reprojectBand := fun b _ _ => b
    getObjectDatetime := fun _ _ => .ok 5 }

/-- A sample descriptor over the sample environment. -/
def wcog : COG :=
  COG.init sampleEnv 7 "s3://b/k" [0, 1, 10, 11] (0 : ℚ) (1, 1) "EPSG:5070" "viridis"

/-- A second descriptor agreeing with `wcog` on projection and native box only. -/
def wcog2 : COG :=
  COG.init sampleEnv 9 "s3://b/other" [0, 1, 10, 11] "ignored" (2, 2) "EPSG:5070" "gray"

/-- C1: `COG.__init__` sets the capture timestamp to the construction-time clock
reading, and the caller-supplied `temporal` argument (of any type and value) has
no effect on the constructed descriptor. -/
theorem temporal_arg_ignored {α β : Type} (env : Env) (now : ℚ) (uri : String)
    (bbox : List ℚ) (t₁ : α) (t₂ : β) (res : ℚ × ℚ) (proj cmap : String) :
    (COG.init env now uri bbox t₁ res proj cmap).temporal = now ∧
    COG.init env now uri bbox t₁ res proj cmap = COG.init env now uri bbox t₂ res proj cmap := by
  exact ⟨rfl, rfl⟩

/-- C2: for a descriptor whose native box is [minx, miny, maxx, maxy], the
`bbox_4326` property is the always-xy transform of the min corner followed by the
transform of the max corner, a four-element list. -/
theorem bbox_4326_spec (env : Env) (c : COG) (mnx mny mxx mxy : ℚ)
    (h : c._bbox = [mnx, mny, mxx, mxy]) :
    c.bbox_4326 env =
      [(env.fromCrs c.projection "epsg:4326" true (mnx, mny)).1,
       (env.fromCrs c.projection "epsg:4326" true (mnx, mny)).2,
       (env.fromCrs c.projection "epsg:4326" true (mxx, mxy)).1,
       (env.fromCrs c.projection "epsg:4326" true (mxx, mxy)).2] := by
  simp [COG.bbox_4326, h]

/-- Witness for C2 at the sample descriptor: the native box [0,1,10,11] maps to
[0,101,20,111] under the sample transform. -/
theorem bbox_4326_spec_witness :
    wcog._bbox = [(0 : ℚ), 1, 10, 11] ∧
    wcog.bbox_4326 sampleEnv = [(0 : ℚ), 101, 20, 111] := by
  refine ⟨rfl, ?_⟩
  have h := bbox_4326_spec sampleEnv wcog 0 1 10 11 rfl
  norm_num [sampleEnv, sampleTransform] at h
  exact h

/-- C3: the footprint cached by the constructor is a polygon of exactly four
vertices, the corners of the geographic-bounding-box rectangle in the order
(minx,miny), (minx,maxy), (maxx,maxy), (maxx,miny). -/
theorem footprint_rectangle {α : Type} (env : Env) (now : ℚ) (uri : String)
    (bbox : List ℚ) (t : α) (res : ℚ × ℚ) (proj cmap : String) :
    (COG.init env now uri bbox t res proj cmap)._footprint_4326.coordinates =
      [(((COG.init env now uri bbox t res proj cmap).bbox_4326 env).getD 0 0,
        ((COG.init env now uri bbox t res proj cmap).bbox_4326 env).getD 1 0),
       (((COG.init env now uri bbox t res proj cmap).bbox_4326 env).getD 0 0,
        ((COG.init env now uri bbox t res proj cmap).bbox_4326 env).getD 3 0),
       (((COG.init env now uri bbox t res proj cmap).bbox_4326 env).getD 2 0,
        ((COG.init env now uri bbox t res proj cmap).bbox_4326 env).getD 3 0),
       (((COG.init env now uri bbox t res proj cmap).bbox_4326 env).getD 2 0,
        ((COG.init env now uri bbox t res proj cmap).bbox_4326 env).getD 1 0)] ∧
    (COG.init env now uri bbox t res proj cmap)._footprint_4326.coordinates.length = 4 ∧
    (COG.init env now uri bbox t res proj cmap)._footprint_4326.type = "Polygon" := by
  exact ⟨rfl, rfl, rfl⟩

/-- C4: with `new_thumbnail = false` the item has exactly the `cog` asset, href
fixed to "grid.tif" with role data; with `new_thumbnail = true` exactly the `cog`
and `thumbnail` assets (href "thumbnail.png", role thumbnail), and the
thumbnail-rendering operation is invoked with the given path. -/
theorem to_pystac_item_assets (env : Env) (now : ℚ) (c : FRDCog) (item_id path : String) :
    (FRDCog.to_pystac_item env now c item_id path false).1.assets =
      [("cog", { href := "grid.tif", media_type := MediaType.geotiff, roles := ["data"] })] ∧
    (FRDCog.to_pystac_item env now c item_id path true).1.assets =
      [("cog", { href := "grid.tif", media_type := MediaType.geotiff, roles := ["data"] }),
       ("thumbnail", { href := "thumbnail.png", media_type := MediaType.png, roles := ["thumbnail"] })] ∧
    Effect.thumbnailCall path ∈ (FRDCog.to_pystac_item env now c item_id path true).2 := by
  refine ⟨rfl, rfl, ?_⟩
  simp [FRDCog.to_pystac_item]

/-- Reduction of the `Except` bind on a success, by definition. -/
theorem except_bind_ok {ε α β : Type} (a : α) (f : α → Except ε β) :
    (Except.ok (ε := ε) a >>= f) = f a := rfl

/-- Reduction of the `Except` bind on a failure, by definition. -/
theorem except_bind_error {ε α β : Type} (e : ε) (f : α → Except ε β) :
    ((Except.error e : Except ε α) >>= f) = Except.error e := rfl

/-- Reduction of the `Except` functor map on a success, by definition. -/
theorem except_fmap_ok {ε α β : Type} (a : α) (f : α → β) :
    (f <$> (Except.ok a : Except ε α)) = Except.ok (f a) := rfl

/-- Reduction of the `Except` functor map on a failure, by definition. -/
theorem except_fmap_error {ε α β : Type} (e : ε) (f : α → β) :
    (f <$> (Except.error e : Except ε α)) = Except.error e := rfl

/-- Reduction of `Except.map` on a failure, by definition. -/
theorem except_map_error {ε α β : Type} (e : ε) (f : α → β) :
    Except.map f (Except.error e : Except ε α) = Except.error e := rfl

/-- C5: `from_s3` catches failures and returns `none`: an opening failure yields
`none`, and so does a failing last-modified lookup on a raster with no embedded
timestamp tag; no exception escapes (the function is total into `Option`). -/
theorem from_s3_failure_absent (env : Env) (now : ℚ) (bucket key cmap : String) :
    (∀ e, env.openDataset ("/vsis3/" ++ bucket ++ "/" ++ key) = .error e →
      COG.from_s3 env now bucket key cmap = none) ∧
    (∀ ds e, env.openDataset ("/vsis3/" ++ bucket ++ "/" ++ key) = .ok ds →
      ds.datetimeTags = [] → env.getObjectDatetime bucket key = .error e →
      COG.from_s3 env now bucket key cmap = none) := by
  constructor
  · intro e hopen
    simp [COG.from_s3, hopen, except_bind_error]
  · intro ds e hopen htags hlm
    simp [COG.from_s3, hopen, except_bind_ok, htags, hlm, except_map_error,
      except_bind_error]

/-- Witness for C5: the opening-failure environment and the lookup-failure
environment both produce an absent descriptor. -/
theorem from_s3_failure_absent_witness :
    COG.from_s3 failEnv 7 "b" "k" "gray" = none ∧
    COG.from_s3 failEnv2 7 "b" "k" "gray" = none :=
  ⟨(from_s3_failure_absent failEnv 7 "b" "k" "gray").1 "RasterioIOError" rfl,
   (from_s3_failure_absent failEnv2 7 "b" "k" "gray").2 sampleDataset "NoSuchKey" rfl rfl rfl⟩

/-- C6: evaluation exhibiting the divergence: the raster carries no embedded
timestamp tag and the storage last-modified time is 5, yet the descriptor built
by `from_s3` has capture timestamp 7, the construction-time clock reading — the
fallback value is computed and then discarded. -/
theorem from_s3_fallback_discarded :
    sampleDataset.datetimeTags = [] ∧
    sampleEnv.getObjectDatetime "b" "k" = .ok 5 ∧
    (COG.from_s3 sampleEnv 7 "b" "k" "gray").map COG.temporal = some 7 ∧
    (7 : ℚ) ≠ 5 := by
  refine ⟨rfl, rfl, rfl, by norm_num⟩

/-- C7: `all_cells_dry` is `some true` exactly when every pixel of band 1 equals
the declared nodata value, `some false` exactly when some pixel differs, and
`none` when opening the raster fails. -/
theorem all_cells_dry_spec (env : Env) (c : COG) :
    (∀ ds nd b,
      env.openDataset
          ("/vsis3/" ++ (split_s3_path c.uri).1 ++ "/" ++ (split_s3_path c.uri).2) = .ok ds →
      ds.nodatavals.head? = some (some nd) → ds.bands.head? = some b →
      (c.all_cells_dry env = some true ↔ ∀ v ∈ b, v = nd) ∧
      (c.all_cells_dry env = some false ↔ ∃ v ∈ b, v ≠ nd)) ∧
    (∀ e, env.openDataset
          ("/vsis3/" ++ (split_s3_path c.uri).1 ++ "/" ++ (split_s3_path c.uri).2) = .error e →
      c.all_cells_dry env = none) := by
  constructor
  · intro ds nd b hopen hnd hb
    have heval : c.all_cells_dry env = some (b.all fun v => v == nd) := by
      simp [COG.all_cells_dry, hopen, except_bind_ok, Dataset.read1, hb,
        Dataset.nodataval0, hnd, except_fmap_ok, pixelEqNodata]
    constructor
    · simp [heval, List.all_eq_true]
    · simp [heval, List.all_eq_false]
  · intro e hopen
    simp [COG.all_cells_dry, hopen, except_bind_error]

/-- Witness for C7: the sample raster is all-nodata, so the check returns
`some true`; in the failing environment it returns `none`. -/
theorem all_cells_dry_spec_witness :
    wcog.all_cells_dry sampleEnv = some true ∧ wcog.all_cells_dry failEnv = none := by
  constructor
  · exact ((all_cells_dry_spec sampleEnv wcog).1 sampleDataset 3 [3, 3, 3, 3]
      rfl rfl rfl).1.mpr (by decide)
  · exact (all_cells_dry_spec failEnv wcog).2 "RasterioIOError" rfl

/-- C8: the item's geometry is the footprint cached at construction, its bbox the
freshly recomputed geographic bounding box, its datetime the descriptor's capture
timestamp, and its extension list exactly the three fixed schema references. -/
theorem to_pystac_item_fields (env : Env) (now : ℚ) (c : FRDCog)
    (item_id path : String) (new_thumbnail : Bool) :
    (FRDCog.to_pystac_item env now c item_id path new_thumbnail).1.geometry = c._footprint_4326 ∧
    (FRDCog.to_pystac_item env now c item_id path new_thumbnail).1.bbox = c.bbox_4326 env ∧
    (FRDCog.to_pystac_item env now c item_id path new_thumbnail).1.datetime = c.temporal ∧
    (FRDCog.to_pystac_item env now c item_id path new_thumbnail).1.stac_extensions =
      ["https://stac-extensions.github.io/projection/v1.0.0/schema.json",
       "https://stac-extensions.github.io/storage/v1.0.0/schema.json",
       "https://stac-extensions.github.io/processing/v1.1.0/schema.json"] := by
  cases new_thumbnail <;> exact ⟨rfl, rfl, rfl, rfl⟩

/-- C9: the geographic bounding box access is deterministic and side-effect-free:
the access leaves the descriptor unchanged, a second access on the post-state
returns the same value, and the value depends only on the projection and the
native bounding box fields. -/
theorem bbox_4326_pure (env : Env) (c c₂ : COG)
    (hp : c.projection = c₂.projection) (hb : c._bbox = c₂._bbox) :
    (c.bbox_4326_access env).2 = c ∧
    (c.bbox_4326_access env).1 = (((c.bbox_4326_access env).2).bbox_4326_access env).1 ∧
    c.bbox_4326 env = c₂.bbox_4326 env := by
  refine ⟨rfl, rfl, ?_⟩
  simp [COG.bbox_4326, COG.bbox_4326_access, hp, hb]

/-- Witness for C9: two sample descriptors differing in uri, timestamp,
resolution and color map but agreeing on projection and native box. -/
theorem bbox_4326_pure_witness :
    (wcog.bbox_4326_access sampleEnv).2 = wcog ∧
    (wcog.bbox_4326_access sampleEnv).1 =
      (((wcog.bbox_4326_access sampleEnv).2).bbox_4326_access sampleEnv).1 ∧
    wcog.bbox_4326 sampleEnv = wcog2.bbox_4326 sampleEnv :=
  bbox_4326_pure sampleEnv wcog wcog2 rfl rfl

/-- Helper: a successful band-axis squeeze forces exactly one entry on the axis. -/
theorem squeeze_axis0_ok_length {α : Type} (a : List α) (x : α)
    (h : squeeze_axis0 a = .ok x) : a.length = 1 := by
  match a with
  | [_] => rfl
  | [] => simp [squeeze_axis0] at h
  | _ :: _ :: _ => simp [squeeze_axis0] at h

/-- C10: when the opened raster's band count is not 1, the band-axis squeeze
raises before the image is saved and `create_thumbnail` writes nothing; a file is
written only for single-band rasters. -/
theorem create_thumbnail_single_band (env : Env) (c : COG) (path : String)
    (factor : ℕ) (ds : Dataset) (hopen : env.openDataset (replaceS3 c.uri) = .ok ds) :
    (ds.count ≠ 1 → c.create_thumbnail env path factor = []) ∧
    (c.create_thumbnail env path factor ≠ [] → ds.count = 1) := by
  have key : c.create_thumbnail env path factor ≠ [] → ds.count = 1 := by
    intro hne
    simp only [COG.create_thumbnail, hopen, except_bind_ok] at hne
    by_cases hz : ds.width / factor = 0 ∨ ds.height / factor = 0
    · rw [if_pos hz] at hne
      exact absurd rfl hne
    · rw [if_neg hz] at hne
      rcases hsq : squeeze_axis0
          (ds.bands.map fun b =>
            env.reprojectBand b (ds.height / factor) (ds.width / factor)) with e | img
      · rw [hsq] at hne
        exact absurd rfl hne
      · have hlen := squeeze_axis0_ok_length _ _ hsq
        simpa [Dataset.count] using hlen
  refine ⟨fun hcount => ?_, key⟩
  by_contra hne
  exact hcount (key hne)

/-- Witness for C10: over the two-band dataset the thumbnail operation writes
nothing. -/
theorem create_thumbnail_single_band_witness :
    wcog.create_thumbnail multibandEnv "thumbnail.png" 4 = [] :=
  (create_thumbnail_single_band multibandEnv wcog "thumbnail.png" 4
    multibandDataset rfl).1 (by decide)

end FrdStac
